import Mathlib

/-!
# The playlist service contract

Source: `pkg/services/playlist/playlist.go`.  The file declares one Go
interface, `Service`, and nothing else.  The interface declaration is
embedded as data (method names with their parameter and result types), so that
statements about the shape of the contract become statements about a Lean
value.
-/

set_option autoImplicit false

namespace playlist

/-! ## Go types occurring in the declaration -/

/-- Type expressions used by the declaration: a predeclared or package-local
type name (`error`, `Playlists`), a package-qualified name
(`context.Context`), and a pointer type (`*Playlist`). -/
inductive GoType where
  | named (name : String)
  | qualified (pkg : String) (name : String)
  | pointer (elem : GoType)
  deriving DecidableEq, Repr

namespace GoType

/-- The type `context.Context`. -/
def context : GoType := qualified "context" "Context"

/-- The predeclared type `error`. -/
def error : GoType := named "error"

/-- The pointer type `*name` for a package-local type name. -/
def ptr (name : String) : GoType := pointer (named name)

/-- The type name reached after removing every pointer indirection,
written the way Go source writes it. -/
def baseName : GoType → String
  | named n => n
  | qualified p n => p ++ "." ++ n
  | pointer t => baseName t

end GoType

/-- One method of an interface: its name, the types of its parameters in
order, and the types of its results in order. -/
structure MethodSig where
  name : String
  params : List GoType
  results : List GoType
  deriving DecidableEq, Repr

/-- An interface declaration: the methods in the order they are written. -/
structure InterfaceDecl where
  methods : List MethodSig
  deriving DecidableEq, Repr

open GoType in
/-- The declaration `type Service interface { ... }` of `playlist.go`,
line for line. -/
def Service : InterfaceDecl where
  methods :=
    [ { name := "Create"
        params := [context, ptr "CreatePlaylistCommand"]
        results := [ptr "Playlist", error] }
    , { name := "Read"
        params := [context, ptr "ReadPlaylistByUidQuery"]
        results := [ptr "PlaylistDTO", error] }
    , { name := "Update"
        params := [context, ptr "UpdatePlaylistCommand"]
        results := [ptr "PlaylistDTO", error] }
    , { name := "Delete"
        params := [context, ptr "DeletePlaylistCommand"]
        results := [error] }
    , { name := "GetWithoutItems"
        params := [context, ptr "ReadPlaylistByUidQuery"]
        results := [ptr "Playlist", error] }
    , { name := "Search"
        params := [context, ptr "GetPlaylistsQuery"]
        results := [named "Playlists", error] } ]

namespace InterfaceDecl

/-- The names of the declared methods, in declaration order. -/
def methodNames (d : InterfaceDecl) : List String :=
  d.methods.map MethodSig.name

/-- The declared method with the given name, if there is one. -/
def lookup (d : InterfaceDecl) (n : String) : Option MethodSig :=
  d.methods.find? (fun m => m.name == n)

/-- The number of declared methods. -/
def numMethods (d : InterfaceDecl) : Nat :=
  d.methods.length

/-- The parameter list of the method named `n` (`none` when no such method
is declared). -/
def paramsOf (d : InterfaceDecl) (n : String) : Option (List GoType) :=
  (d.lookup n).map MethodSig.params

/-- The result list of the method named `n` (`none` when no such method is
declared). -/
def resultsOf (d : InterfaceDecl) (n : String) : Option (List GoType) :=
  (d.lookup n).map MethodSig.results

/-- The type of the parameter at position `i` (counted from 0) of the method
named `n`. -/
def paramAt (d : InterfaceDecl) (n : String) (i : Nat) : Option GoType :=
  (d.paramsOf n).bind (fun ps => ps[i]?)

/-- The type of the result at position `i` (counted from 0) of the method
named `n`. -/
def resultAt (d : InterfaceDecl) (n : String) (i : Nat) : Option GoType :=
  (d.resultsOf n).bind (fun rs => rs[i]?)

end InterfaceDecl

namespace MethodSig

/-- The results of a method that are not the `error` indicator. -/
def valueResults (m : MethodSig) : List GoType :=
  m.results.filter (fun t => t != GoType.error)

/-- The parameters that follow the first one. -/
def payloadParams (m : MethodSig) : List GoType :=
  m.params.tail

end MethodSig

/-- Whether the string `s` ends with the string `suf`. -/
def hasSuffix (s suf : String) : Bool :=
  suf.data.isSuffixOf s.data

/-! ## The contract as the specification lists it -/

/-- One line of the specification's listing of the external contract, such as
`Create(ctx, CreatePlaylistCommand) -> (Playlist, error)`: the operation,
its inputs and its outputs, each by the name the listing uses. -/
structure SpecSig where
  operation : String
  inputs : List String
  outputs : List String
  deriving DecidableEq, Repr

/-- The six lines of the listing in the specification's section on external
interfaces, in the order they are written there. -/
def specListing : List SpecSig :=
  [ ⟨"Create", ["ctx", "CreatePlaylistCommand"], ["Playlist", "error"]⟩
  , ⟨"Read", ["ctx", "ReadPlaylistByUidQuery"], ["PlaylistDTO", "error"]⟩
  , ⟨"Update", ["ctx", "UpdatePlaylistCommand"], ["PlaylistDTO", "error"]⟩
  , ⟨"Delete", ["ctx", "DeletePlaylistCommand"], ["error"]⟩
  , ⟨"GetWithoutItems", ["ctx", "ReadPlaylistByUidQuery"], ["Playlist", "error"]⟩
  , ⟨"Search", ["ctx", "GetPlaylistsQuery"], ["Playlists", "error"]⟩ ]

/-- How the listing writes a Go type: the execution context is written
`ctx`, every other type by its name without pointer marks. -/
def specTypeName (t : GoType) : String :=
  if t = GoType.context then "ctx" else t.baseName

/-- The listing line that a declared method corresponds to. -/
def MethodSig.specView (m : MethodSig) : SpecSig :=
  ⟨m.name, m.params.map specTypeName, m.results.map specTypeName⟩

/-! ## A store-backed implementation, modelled from the specification

`playlist.go` declares the interface only: no type implementing it, and none
of the command, query and result types, is part of the file.  The behaviour
of the operations is therefore modelled from the notes of the specification's
contract table.  The model is sequential; the execution context, which only
carries cancellation, is left out of it.
-/

namespace model

/-- Modelled from the spec: the type `PlaylistDTO`, not declared in
`playlist.go`.  It is the full representation of a playlist: identified by a
uid and carrying its items.  All other content is the parameter `Meta`. -/
structure PlaylistDTO (Meta Item : Type) where
  uid : String
  info : Meta
  items : List Item
  deriving DecidableEq, Repr

/-- Modelled from the spec: the type `Playlist`, not declared in
`playlist.go`.  It is the lightweight representation of a playlist, the one
"without items". -/
structure Playlist (Meta : Type) where
  uid : String
  info : Meta
  deriving DecidableEq, Repr

/-- Modelled from the spec: the type `ReadPlaylistByUidQuery`, not declared in
`playlist.go`: a lookup by uid. -/
structure ReadPlaylistByUidQuery where
  uid : String
  deriving DecidableEq, Repr

/-- Modelled from the spec: the type `UpdatePlaylistCommand`, not declared in
`playlist.go`: the uid of the target playlist and its new content. -/
structure UpdatePlaylistCommand (Meta Item : Type) where
  uid : String
  info : Meta
  items : List Item
  deriving DecidableEq, Repr

/-- Modelled from the spec: the type `DeletePlaylistCommand`, not declared in
`playlist.go`: the uid of the target playlist. -/
structure DeletePlaylistCommand where
  uid : String
  deriving DecidableEq, Repr

/-- Modelled from the spec: the values of the `error` result, for which the
specification defines no kinds.  The two failure causes it names for the
uid-targeted operations are kept apart; a nil error is `none` of
`Option ServiceError`. -/
inductive ServiceError where
  | notFound
  | invalidCommand
  deriving DecidableEq, Repr

/-- Modelled from the spec: the storage behind an implementation of
`Service`, absent from `playlist.go`: the stored playlists, each in its full
representation. -/
abbrev Store (Meta Item : Type) := List (PlaylistDTO Meta Item)

/-- Modelled from the spec: the parts of an implementation of `Service` that
the specification leaves unspecified: which update commands are valid, and
which playlists the criteria of a `GetPlaylistsQuery` select. -/
structure Backend (Meta Item Query : Type) where
  validUpdate : UpdatePlaylistCommand Meta Item → Bool
  selects : Query → Playlist Meta → Bool

/-- Modelled from the spec: the projection from the full representation to the
one omitting nested items, absent from `playlist.go`. -/
def PlaylistDTO.withoutItems {Meta Item : Type} (p : PlaylistDTO Meta Item) :
    Playlist Meta :=
  ⟨p.uid, p.info⟩

/-- Modelled from the spec: an implementation of `Service.Read`, absent from
`playlist.go`: "fails if no playlist matches the uid". -/
def Read {Meta Item : Type} (s : Store Meta Item) (q : ReadPlaylistByUidQuery) :
    Option (PlaylistDTO Meta Item) × Option ServiceError :=
  match s.find? (fun p => p.uid == q.uid) with
  | some p => (some p, none)
  | none => (none, some ServiceError.notFound)

/-- Modelled from the spec: an implementation of `Service.GetWithoutItems`,
absent from `playlist.go`: "same lookup key as Read, returns a variant
representation omitting nested items". -/
def GetWithoutItems {Meta Item : Type} (s : Store Meta Item)
    (q : ReadPlaylistByUidQuery) : Option (Playlist Meta) × Option ServiceError :=
  match s.find? (fun p => p.uid == q.uid) with
  | some p => (some p.withoutItems, none)
  | none => (none, some ServiceError.notFound)

/-- Modelled from the spec: an implementation of `Service.Update`, absent from
`playlist.go`: "fails if target playlist absent or command invalid".  The
result is the store after the call and the pair the method returns. -/
def Update {Meta Item Query : Type} (b : Backend Meta Item Query)
    (s : Store Meta Item) (cmd : UpdatePlaylistCommand Meta Item) :
    Store Meta Item × (Option (PlaylistDTO Meta Item) × Option ServiceError) :=
  if b.validUpdate cmd then
    if s.any (fun p => p.uid == cmd.uid) then
      let updated : PlaylistDTO Meta Item := ⟨cmd.uid, cmd.info, cmd.items⟩
      (s.map (fun p => if p.uid == cmd.uid then updated else p), (some updated, none))
    else
      (s, (none, some ServiceError.notFound))
  else
    (s, (none, some ServiceError.invalidCommand))

/-- Modelled from the spec: an implementation of `Service.Delete`, absent from
`playlist.go`: "fails if target absent; success has no return value".  The
result is the store after the call and the error the method returns. -/
def Delete {Meta Item : Type} (s : Store Meta Item) (cmd : DeletePlaylistCommand) :
    Store Meta Item × Option ServiceError :=
  if s.any (fun p => p.uid == cmd.uid) then
    (s.filter (fun p => p.uid != cmd.uid), none)
  else
    (s, some ServiceError.notFound)

/-- Modelled from the spec: an implementation of `Service.Search`, absent from
`playlist.go`: "returns zero or more matches; empty result is not an
error".  `Playlists` is the collection of the matches. -/
def Search {Meta Item Query : Type} (b : Backend Meta Item Query)
    (s : Store Meta Item) (q : Query) : List (Playlist Meta) × Option ServiceError :=
  ((s.map PlaylistDTO.withoutItems).filter (fun p => b.selects q p), none)

/-- A backend for examples: every update command with a non-empty uid is
valid, and the criteria of a query are a uid to match. -/
def sampleBackend : Backend String Nat String where
  validUpdate := fun cmd => cmd.uid != ""
  selects := fun q p => p.uid == q

/-- A store for examples, holding two playlists. -/
def sampleStore : Store String Nat :=
  [⟨"a1", "morning", [1, 2]⟩, ⟨"b2", "night", []⟩]

end model

/-! ## The shape of the declared contract -/

/-- C1: the method set of `Service` is exactly the six operations Create,
Read, Update, Delete, GetWithoutItems and Search, each with the inputs and
outputs of the specification's listing; no other method name is declared. -/
theorem Service_methods_match_listing :
    Service.methods.map MethodSig.specView = specListing ∧
    Service.methodNames =
      ["Create", "Read", "Update", "Delete", "GetWithoutItems", "Search"] ∧
    Service.methodNames.Nodup ∧
    (∀ n : String, (Service.lookup n).isSome = true ↔
      n ∈ ["Create", "Read", "Update", "Delete", "GetWithoutItems", "Search"]) := by
  refine ⟨by decide, by decide, by decide, ?_⟩
  intro n
  unfold InterfaceDecl.lookup
  rw [List.find?_isSome]
  simp only [Service, List.mem_cons, List.mem_singleton, List.not_mem_nil, or_false,
    beq_iff_eq]
  constructor
  · rintro ⟨m, hm, rfl⟩
    rcases hm with h | h | h | h | h | h <;> subst h <;> simp
  · intro h
    rcases h with h | h | h | h | h | h <;> subst h
    · exact ⟨_, Or.inl rfl, rfl⟩
    · exact ⟨_, Or.inr (Or.inl rfl), rfl⟩
    · exact ⟨_, Or.inr (Or.inr (Or.inl rfl)), rfl⟩
    · exact ⟨_, Or.inr (Or.inr (Or.inr (Or.inl rfl))), rfl⟩
    · exact ⟨_, Or.inr (Or.inr (Or.inr (Or.inr (Or.inl rfl)))), rfl⟩
    · exact ⟨_, Or.inr (Or.inr (Or.inr (Or.inr (Or.inr rfl)))), rfl⟩

/-- C2, as stated, fails: the number of methods declared by `Service` is not
five. -/
theorem Service_numMethods_ne_five : Service.numMethods ≠ 5 := by
  decide

/-- C2, amended: `Service` declares exactly six operations, under six
distinct names. -/
theorem Service_numMethods_eq_six :
    Service.numMethods = 6 ∧ Service.methodNames.Nodup ∧
      Service.methodNames.length = 6 := by
  refine ⟨by decide, by decide, by decide⟩

/-- C3: the second parameter of Read and the second parameter of
GetWithoutItems are both `*ReadPlaylistByUidQuery`; the two methods have the
same parameter list, so an argument type fits one exactly when it fits the
other. -/
theorem Read_GetWithoutItems_same_query :
    Service.paramAt "Read" 1 = some (GoType.ptr "ReadPlaylistByUidQuery") ∧
    Service.paramAt "GetWithoutItems" 1 = some (GoType.ptr "ReadPlaylistByUidQuery") ∧
    Service.paramsOf "Read" = Service.paramsOf "GetWithoutItems" ∧
    (∀ t : GoType, Service.paramAt "Read" 1 = some t ↔
      Service.paramAt "GetWithoutItems" 1 = some t) := by
  have h : Service.paramAt "Read" 1 = Service.paramAt "GetWithoutItems" 1 := by decide
  refine ⟨by decide, by decide, by decide, ?_⟩
  intro t
  rw [h]

/-- C4: every operation of `Service` has `error` as its last result and
nowhere else; Create, Read, Update and GetWithoutItems return one pointer to a
domain value before it, Search returns the one collection `Playlists` before
it, and Delete returns `error` alone. -/
theorem Service_results_shape :
    (∀ m ∈ Service.methods,
      m.results.getLast? = some GoType.error ∧
      m.results = m.valueResults ++ [GoType.error]) ∧
    (∀ n ∈ ["Create", "Read", "Update", "GetWithoutItems"],
      ∃ m v, Service.lookup n = some m ∧ m.valueResults = [GoType.pointer v]) ∧
    (∃ m, Service.lookup "Search" = some m ∧
      m.valueResults = [GoType.named "Playlists"]) ∧
    (∃ m, Service.lookup "Delete" = some m ∧
      m.valueResults = [] ∧ m.results = [GoType.error]) := by
  refine ⟨by decide, ?_, ⟨_, rfl, by decide⟩, ⟨_, rfl, by decide, by decide⟩⟩
  intro n hn
  simp only [List.mem_cons, List.mem_singleton, List.not_mem_nil, or_false] at hn
  rcases hn with h | h | h | h <;> subst h
  · exact ⟨_, GoType.named "Playlist", rfl, by decide⟩
  · exact ⟨_, GoType.named "PlaylistDTO", rfl, by decide⟩
  · exact ⟨_, GoType.named "PlaylistDTO", rfl, by decide⟩
  · exact ⟨_, GoType.named "Playlist", rfl, by decide⟩

/-- C5: every method declared in `Service` takes `context.Context` first,
followed by exactly one further parameter, a pointer to a type named as a
command or as a query. -/
theorem Service_params_shape (m : MethodSig) (hm : m ∈ Service.methods) :
    m.params.head? = some GoType.context ∧
    m.params.length = 2 ∧
    ∃ n, m.payloadParams = [GoType.ptr n] ∧
      (hasSuffix n "Command" = true ∨ hasSuffix n "Query" = true) := by
  simp only [Service, List.mem_cons, List.mem_singleton, List.not_mem_nil, or_false] at hm
  rcases hm with h | h | h | h | h | h <;> subst h
  · exact ⟨rfl, rfl, "CreatePlaylistCommand", rfl, Or.inl (by decide)⟩
  · exact ⟨rfl, rfl, "ReadPlaylistByUidQuery", rfl, Or.inr (by decide)⟩
  · exact ⟨rfl, rfl, "UpdatePlaylistCommand", rfl, Or.inl (by decide)⟩
  · exact ⟨rfl, rfl, "DeletePlaylistCommand", rfl, Or.inl (by decide)⟩
  · exact ⟨rfl, rfl, "ReadPlaylistByUidQuery", rfl, Or.inr (by decide)⟩
  · exact ⟨rfl, rfl, "GetPlaylistsQuery", rfl, Or.inr (by decide)⟩

/-- C5 at the Delete method. -/
theorem Service_params_shape_witness :
    (⟨"Delete", [GoType.context, GoType.ptr "DeletePlaylistCommand"], [GoType.error]⟩ :
        MethodSig) ∈ Service.methods ∧
    [GoType.context, GoType.ptr "DeletePlaylistCommand"].head? = some GoType.context ∧
    [GoType.context, GoType.ptr "DeletePlaylistCommand"].length = 2 ∧
    ∃ n, [GoType.context, GoType.ptr "DeletePlaylistCommand"].tail = [GoType.ptr n] ∧
      (hasSuffix n "Command" = true ∨ hasSuffix n "Query" = true) :=
  ⟨by decide,
   Service_params_shape
     ⟨"Delete", [GoType.context, GoType.ptr "DeletePlaylistCommand"], [GoType.error]⟩
     (by decide)⟩

/-- C9: GetWithoutItems returns the value type that Create returns,
`*Playlist`, and Read returns the value type that Update returns,
`*PlaylistDTO`; the two value types are different. -/
theorem lookups_return_mutation_types :
    Service.resultAt "GetWithoutItems" 0 = some (GoType.ptr "Playlist") ∧
    Service.resultAt "Create" 0 = some (GoType.ptr "Playlist") ∧
    Service.resultAt "Read" 0 = some (GoType.ptr "PlaylistDTO") ∧
    Service.resultAt "Update" 0 = some (GoType.ptr "PlaylistDTO") ∧
    Service.resultAt "GetWithoutItems" 0 = Service.resultAt "Create" 0 ∧
    Service.resultAt "Read" 0 = Service.resultAt "Update" 0 ∧
    Service.resultAt "Read" 0 ≠ Service.resultAt "GetWithoutItems" 0 := by
  refine ⟨by decide, by decide, by decide, by decide, by decide, by decide, by decide⟩

/-! ## The modelled implementation -/

namespace model

/-- A lookup by a uid that no stored playlist carries finds nothing. -/
theorem find?_uid_absent {Meta Item : Type} (s : Store Meta Item) (uid : String)
    (habs : ∀ p ∈ s, p.uid ≠ uid) :
    s.find? (fun p => p.uid == uid) = none := by
  rw [List.find?_eq_none]
  intro p hp
  simpa using habs p hp

/-- No stored playlist carries a uid that none of them carries. -/
theorem any_uid_absent {Meta Item : Type} (s : Store Meta Item) (uid : String)
    (habs : ∀ p ∈ s, p.uid ≠ uid) :
    s.any (fun p => p.uid == uid) = false := by
  rw [List.any_eq_false]
  intro p hp
  simpa using habs p hp

/-- On the sample store the uid-targeted operations succeed for a stored uid:
Read and GetWithoutItems return the two representations with a nil error,
Update replaces the content, and Delete removes the playlist. -/
theorem sample_present_uid_succeeds :
    Read sampleStore ⟨"a1"⟩ = (some ⟨"a1", "morning", [1, 2]⟩, none) ∧
    GetWithoutItems sampleStore ⟨"a1"⟩ = (some ⟨"a1", "morning"⟩, none) ∧
    Update sampleBackend sampleStore ⟨"b2", "dusk", [7]⟩ =
      ([⟨"a1", "morning", [1, 2]⟩, ⟨"b2", "dusk", [7]⟩], (some ⟨"b2", "dusk", [7]⟩, none)) ∧
    Delete sampleStore ⟨"a1"⟩ = ([⟨"b2", "night", []⟩], none) ∧
    Search sampleBackend sampleStore "b2" = ([⟨"b2", "night"⟩], none) := by
  refine ⟨by decide, by decide, by decide, by decide, by decide⟩

/-- C6: in the modelled implementation, for a uid that matches no stored
playlist, Read returns an error and no PlaylistDTO, Update returns an error
and no PlaylistDTO, and Delete returns an error; Update and Delete leave the
store as it was. -/
theorem absent_uid_fails {Meta Item Query : Type} (b : Backend Meta Item Query)
    (s : Store Meta Item) (uid : String) (habs : ∀ p ∈ s, p.uid ≠ uid) :
    (∃ e, Read s ⟨uid⟩ = (none, some e)) ∧
    (∀ info items, ∃ e, Update b s ⟨uid, info, items⟩ = (s, (none, some e))) ∧
    (∃ e, Delete s ⟨uid⟩ = (s, some e)) := by
  refine ⟨⟨ServiceError.notFound, ?_⟩, ?_, ⟨ServiceError.notFound, ?_⟩⟩
  · simp only [Read, find?_uid_absent s uid habs]
  · intro info items
    unfold Update
    by_cases hv : b.validUpdate ⟨uid, info, items⟩ = true
    · refine ⟨ServiceError.notFound, ?_⟩
      simp [hv, any_uid_absent s uid habs]
    · refine ⟨ServiceError.invalidCommand, ?_⟩
      simp [hv]
  · simp [Delete, any_uid_absent s uid habs]

/-- C6 at the sample store and the uid `zz`, which it does not hold. -/
theorem absent_uid_fails_witness :
    (∀ p ∈ sampleStore, p.uid ≠ "zz") ∧
    ((∃ e, Read sampleStore ⟨"zz"⟩ = (none, some e)) ∧
     (∀ info items, ∃ e,
        Update sampleBackend sampleStore ⟨"zz", info, items⟩ =
          (sampleStore, (none, some e))) ∧
     (∃ e, Delete sampleStore ⟨"zz"⟩ = (sampleStore, some e))) :=
  ⟨by decide, absent_uid_fails sampleBackend sampleStore "zz" (by decide)⟩

/-- C7: in the modelled implementation, a query whose criteria select no
stored playlist makes Search return the empty collection together with a nil
error; and whenever Search returns the empty collection, its error is nil. -/
theorem search_no_match_is_empty_ok {Meta Item Query : Type}
    (b : Backend Meta Item Query) (s : Store Meta Item) (q : Query)
    (hno : ∀ p ∈ s, b.selects q p.withoutItems = false) :
    Search b s q = ([], none) ∧
    (∀ (s1 : Store Meta Item) (q1 : Query),
      (Search b s1 q1).1 = [] → (Search b s1 q1).2 = none) := by
  refine ⟨?_, fun _ _ _ => rfl⟩
  unfold Search
  rw [Prod.mk.injEq]
  refine ⟨?_, rfl⟩
  rw [List.filter_eq_nil_iff]
  intro p hp
  rw [List.mem_map] at hp
  obtain ⟨d, hd, rfl⟩ := hp
  simp [hno d hd]

/-- C7 at the sample store and the criteria `zz`, which select nothing. -/
theorem search_no_match_is_empty_ok_witness :
    (∀ p ∈ sampleStore, sampleBackend.selects "zz" p.withoutItems = false) ∧
    (Search sampleBackend sampleStore "zz" = ([], none) ∧
     (∀ (s1 : Store String Nat) (q1 : String),
       (Search sampleBackend s1 q1).1 = [] → (Search sampleBackend s1 q1).2 = none)) :=
  ⟨by decide, search_no_match_is_empty_ok sampleBackend sampleStore "zz" (by decide)⟩

end model

end playlist
